import Mathlib

/-!
Shallow embedding of the weekly-summary pipeline of the Narrate journaling
application (src/lib/ai/gemini.ts and src/lib/actions/entries.ts), together
with theorems settling the frozen claims about it.

Strings are modelled as `List Char` (`Str`).  The external collaborators
(Supabase storage, the Gemini generative provider, the locale date renderer)
are modelled as explicit parameters: the storage read result is an
`ApiResponse (List JournalEntry)` value, the provider outcome is a
`ProviderOutcome` (returned text, or a thrown error message), and
`toLocaleDateString` is an abstract `Str → Str` function.  Functions that in
the source perform a provider call additionally return the list of prompts
sent to `model.generateContent`, so that "the provider is never invoked"
is expressible as that list being empty.
-/

namespace Narrate

abbrev Str := List Char

/-- Whitespace as matched by the JavaScript regex class `\s`
(and stripped by `String.prototype.trim`). -/
def isJsSpace (c : Char) : Bool :=
  c.val = 9 || c.val = 10 || c.val = 11 || c.val = 12 || c.val = 13 ||
  c.val = 32 || c.val = 0xA0 || c.val = 0x1680 ||
  (0x2000 ≤ c.val && c.val ≤ 0x200A) ||
  c.val = 0x2028 || c.val = 0x2029 || c.val = 0x202F || c.val = 0x205F ||
  c.val = 0x3000 || c.val = 0xFEFF

/-- Suffix of `s` that follows the first (leftmost) occurrence of `pat`;
`none` when `pat` does not occur.  This is the position at which a JS regex
beginning with the literal `pat` starts matching. -/
def findAfter (pat : Str) : Str → Option Str
  | [] => if pat.isPrefixOf ([] : Str) then some [] else none
  | c :: t =>
    if pat.isPrefixOf (c :: t) then some ((c :: t).drop pat.length)
    else findAfter pat t

/-- JS `String.prototype.includes`. -/
def strContains (s pat : Str) : Bool := (findAfter pat s).isSome

/-- Prefix of `s` up to (excluding) the first position where `stop` starts;
all of `s` when `stop` does not occur.  This is the text consumed by a lazy
`[\s\S]*?` bounded by the lookahead `(?=stop|$)`. -/
def takeUntil (stop : Str) : Str → Str
  | [] => []
  | c :: t => if stop.isPrefixOf (c :: t) then [] else c :: takeUntil stop t

/-- JS `String.prototype.trim`. -/
def trimStr (s : Str) : Str :=
  ((s.dropWhile isJsSpace).reverse.dropWhile isJsSpace).reverse

/-- The characters of the bullet character class on line 125 of gemini.ts.
The source bytes there are `[-` c3a2 e282ac c2a2 `]`, i.e. the class
contains `-` (U+002D), U+00E2, U+20AC and U+00A2 — the UTF-8 bytes of the
bullet `•` (U+2022) mis-decoded as Windows-1252.  The class does NOT
contain U+2022 itself. -/
def bulletChar (c : Char) : Bool :=
  c.val = 0x2D || c.val = 0xE2 || c.val = 0x20AC || c.val = 0xA2

/-- Worker for `splitOnBullets`: scans left to right; a bullet character
ends the current fragment and starts a separator; while in a separator
(`skipping = true`) the greedy `\s*` consumes the following whitespace
run.  This is JS `split` with the separator regex `[-â€¢]\s*`. -/
def splitGo : Str → Str → Bool → List Str
  | [], acc, _ => [acc.reverse]
  | c :: t, acc, skipping =>
    if bulletChar c then acc.reverse :: splitGo t [] true
    else if skipping && isJsSpace c then splitGo t acc skipping
    else splitGo t (c :: acc) false

/-- JS `insightsText.split(/[-â€¢]\s*/)` from gemini.ts line 125. -/
def splitOnBullets (s : Str) : List Str := splitGo s [] false

/-- JS `x || d` for an optional string `x`: the default is used when `x`
is absent or empty (falsy). -/
def jsOr (v : Option Str) (d : Str) : Str :=
  match v with
  | none => d
  | some s => if s.isEmpty then d else s

/-- Section marker `**Weekly Summary:**` (gemini.ts line 109). -/
def weeklySummaryMarker : Str := "**Weekly Summary:**".data

/-- Section marker `**Key Theme:**` (gemini.ts line 112). -/
def keyThemeMarker : Str := "**Key Theme:**".data

/-- Section marker `**Insights & Reflections:**` (gemini.ts line 115). -/
def insightsMarker : Str := "**Insights & Reflections:**".data

/-- Sentinel used when the summary section is missing (gemini.ts line 119). -/
def noSummarySentinel : Str := "No summary available".data

/-- Sentinel used when the theme section is missing (gemini.ts line 120). -/
def noThemeSentinel : Str := "No theme identified".data

/-- Capture group of the JS regex `marker\s*([\s\S]*?)(?=stop|$)` applied to
`s`: the text after the first occurrence of `marker` and its following
whitespace run, up to the first occurrence of `stop` (or end of input). -/
def matchSection (marker stop : Str) (s : Str) : Option Str :=
  (findAfter marker s).map (fun rest => takeUntil stop (rest.dropWhile isJsSpace))

/-- Capture group of `marker\s*([\s\S]*?)$`: text after the first occurrence
of `marker` and its whitespace run, to end of input. -/
def matchToEnd (marker : Str) (s : Str) : Option Str :=
  (findAfter marker s).map (fun rest => rest.dropWhile isJsSpace)

/-- Summary period, mirroring the `period` object of
`WeeklySummaryResponse` in gemini.ts. -/
structure Period where
  start : Str
  «end» : Str
deriving DecidableEq

/-- The `WeeklySummaryResponse` interface of gemini.ts. -/
structure WeeklySummaryResponse where
  summary : Str
  theme : Str
  insights : List Str
  period : Period
deriving DecidableEq

/-- The `parseAIResponse` function of gemini.ts (lines 101-150), try branch.
The body performs only regex matching, trimming and splitting, none of
which throws, so the catch branch (`parseAIResponseFallback` below) is
unreachable; the embedding is the try branch. -/
def parseAIResponse (aiResponse startDate endDate : Str) : WeeklySummaryResponse :=
  let summaryMatch := matchSection weeklySummaryMarker keyThemeMarker aiResponse
  let themeMatch := matchSection keyThemeMarker insightsMarker aiResponse
  let insightsMatch := matchToEnd insightsMarker aiResponse
  let summary := jsOr (summaryMatch.map trimStr) noSummarySentinel
  let theme := jsOr (themeMatch.map trimStr) noThemeSentinel
  let insightsText := jsOr (insightsMatch.map trimStr) []
  let insights := ((splitOnBullets insightsText).filter
      (fun i => decide (0 < (trimStr i).length))).map trimStr
  { summary := summary, theme := theme, insights := insights,
    period := { start := startDate, «end» := endDate } }

/-- The catch-branch fallback value of `parseAIResponse`
(gemini.ts lines 140-148). -/
def parseAIResponseFallback (startDate endDate : Str) : WeeklySummaryResponse :=
  { summary := "Unable to generate summary at this time.".data,
    theme := "Analysis unavailable".data,
    insights := ["Please try again later".data],
    period := { start := startDate, «end» := endDate } }

/-- The `JournalEntryForAI` interface of gemini.ts. -/
structure JournalEntryForAI where
  content : Str
  created_at : Str
deriving DecidableEq

/-- Decimal rendering of a JS number interpolated into a template string. -/
def natToStr (n : Nat) : Str := (Nat.repr n).data

/-- One rendered entry block of the prompt (gemini.ts lines 57-65):
`Entry <n> (<date>):\n<content>`, where `<date>` is
`new Date(created_at).toLocaleDateString('en-US', …)`, modelled by the
abstract locale renderer `renderDate`. -/
def entryBlock (renderDate : Str → Str) (index : Nat) (e : JournalEntryForAI) : Str :=
  "Entry ".data ++ natToStr (index + 1) ++ " (".data ++ renderDate e.created_at
    ++ "):\n".data ++ e.content

/-- JS `Array.prototype.join(sep)`. -/
def joinSep (sep : Str) : List Str → Str
  | [] => []
  | [x] => x
  | x :: y :: t => x ++ sep ++ joinSep sep (y :: t)

/-- The `entriesText` local of `formatJournalPrompt` (gemini.ts lines 56-66):
entry blocks in list order, joined by blank lines. -/
def entriesText (renderDate : Str → Str) (entries : List JournalEntryForAI) : Str :=
  joinSep "\n\n".data (entries.enum.map (fun p => entryBlock renderDate p.1 p.2))

/-- Opening of the prompt template (gemini.ts line 68), with the window
dates interpolated. -/
def promptIntro (startDate endDate : Str) : Str :=
  "You are an AI assistant helping someone reflect on their personal journal entries. Please analyze the following journal entries from ".data
    ++ startDate ++ " to ".data ++ endDate
    ++ " and provide a thoughtful weekly summary.\n\nJournal Entries:\n".data

/-- Remainder of the prompt template after the entries block
(gemini.ts lines 71-91). -/
def promptOutro : Str :=
  "\n\nPlease provide a response in the following format:\n\n**Weekly Summary:**\n[A 2-3 paragraph summary of the main themes, experiences, and emotional journey from this week]\n\n**Key Theme:**\n[Identify the primary theme or pattern that emerged this week in 1-2 sentences]\n\n**Insights & Reflections:**\n[Provide 3-4 bullet points with meaningful insights, patterns, or growth opportunities you noticed]\n\nFocus on:\n- Emotional patterns and growth\n- Recurring themes or concerns\n- Positive developments and achievements\n- Areas for reflection or potential growth\n- The overall narrative arc of the week\n\nKeep the tone supportive, insightful, and encouraging. This is meant to help the person understand their journey and personal growth.".data

/-- The `formatJournalPrompt` function of gemini.ts (lines 51-92). -/
def formatJournalPrompt (renderDate : Str → Str) (entries : List JournalEntryForAI)
    (startDate endDate : Str) : Str :=
  promptIntro startDate endDate ++ entriesText renderDate entries ++ promptOutro

/-- The `GeminiAPIError` class of gemini.ts (lines 33-42). -/
structure GeminiAPIError where
  message : Str
  code : Option Str
  statusCode : Option Nat
deriving DecidableEq

/-- Outcome of the external `model.generateContent` call: the response text,
or a thrown (non-`GeminiAPIError`) error with the given message. -/
inductive ProviderOutcome where
  | ok (text : Str)
  | thrown (message : Str)
deriving DecidableEq

/-- Result of `generateWeeklySummary`: a parsed response, or a thrown
`GeminiAPIError`. -/
inductive GeminiResult where
  | ok (response : WeeklySummaryResponse)
  | err (e : GeminiAPIError)
deriving DecidableEq

/-- Classification of a thrown provider error that is not already a
`GeminiAPIError`, by keyword substrings of its message
(gemini.ts lines 207-241). -/
def classifyProviderError (errorMessage : Str) : GeminiAPIError :=
  if strContains errorMessage "quota".data || strContains errorMessage "rate".data then
    { message := "API rate limit exceeded. Please try again later.".data,
      code := some "RATE_LIMIT".data, statusCode := some 429 }
  else if strContains errorMessage "network".data || strContains errorMessage "fetch".data then
    { message := "Network error occurred. Please check your connection and try again.".data,
      code := some "NETWORK_ERROR".data, statusCode := some 503 }
  else if strContains errorMessage "auth".data || strContains errorMessage "key".data then
    { message := "Authentication failed. Please check your API key configuration.".data,
      code := some "AUTH_ERROR".data, statusCode := some 401 }
  else
    { message := "Failed to generate weekly summary. Please try again.".data,
      code := some "UNKNOWN_ERROR".data, statusCode := some 500 }

/-- The `generateWeeklySummary` function of gemini.ts (lines 159-243).
`apiKeyConfigured` models `process.env.GEMINI_API_KEY` being set and
non-empty; the second component of the result is the list of prompts sent
to `model.generateContent` (empty when the provider is never invoked). -/
def generateWeeklySummary (apiKeyConfigured : Bool) (renderDate : Str → Str)
    (entries : List JournalEntryForAI) (startDate endDate : Str)
    (provider : ProviderOutcome) : GeminiResult × List Str :=
  if !apiKeyConfigured then
    (.err { message := "Gemini API key is not configured".data,
            code := some "MISSING_API_KEY".data, statusCode := none }, [])
  else if entries.isEmpty then
    (.err { message := "No journal entries provided for summary generation".data,
            code := some "NO_ENTRIES".data, statusCode := none }, [])
  else
    let prompt := formatJournalPrompt renderDate entries startDate endDate
    match provider with
    | .ok text =>
      if text.isEmpty then
        (.err { message := "Empty response from Gemini API".data,
                code := some "EMPTY_RESPONSE".data, statusCode := none }, [prompt])
      else
        (.ok (parseAIResponse text startDate endDate), [prompt])
    | .thrown msg => (.err (classifyProviderError msg), [prompt])

/-- The `JournalEntry` row type of src/lib/types/database.ts. -/
structure JournalEntry where
  id : Str
  user_id : Str
  content : Str
  created_at : Str
deriving DecidableEq

/-- The projection applied at entries.ts lines 342-345 to convert database
rows to the AI input format. -/
def toEntryForAI (e : JournalEntry) : JournalEntryForAI :=
  { content := e.content, created_at := e.created_at }

/-- The `ApiResponse<T>` type of src/lib/types/database.ts. -/
structure ApiResponse (α : Type) where
  success : Bool
  data : Option α := none
  error : Option Str := none
deriving DecidableEq

/-- The `WeeklySummary` value constructed by `generateWeeklySummaryAction`
(entries.ts lines 355-363); the runtime value carries the `insights` list
even though the declared TS interface omits that field. -/
structure WeeklySummary where
  summary : Str
  theme : Str
  insights : List Str
  period : Period
deriving DecidableEq

/-- The order clause of the storage query issued by
`getEntriesForWeeklySummary` (entries.ts line 286):
`.order('created_at', { ascending: true })`. -/
structure OrderClause where
  orderField : Str
  ascending : Bool
deriving DecidableEq

/-- Order requested from storage by `getEntriesForWeeklySummary`. -/
def weeklySummaryOrderClause : OrderClause :=
  { orderField := "created_at".data, ascending := true }

/-- The `getEntriesForWeeklySummary` action of entries.ts (lines 258-307).
`authOk` models `supabase.auth.getUser()` succeeding with a user; `dbResult`
models the outcome of the window query (rows, or a database error). -/
def getEntriesForWeeklySummary (authOk : Bool)
    (dbResult : Except Str (List JournalEntry)) : ApiResponse (List JournalEntry) :=
  if !authOk then
    { success := false, error := some "Authentication required".data }
  else
    match dbResult with
    | .error _ =>
      { success := false,
        error := some "Failed to fetch entries for summary. Please try again.".data }
    | .ok rows => { success := true, data := some rows }

/-- Eligibility error message built at entries.ts line 332, with the actual
entry count interpolated into the text. -/
def eligibilityErrorMessage (n : Nat) : Str :=
  "You need at least 5 journal entries from the last 7 days to generate a summary. You currently have ".data
    ++ natToStr n ++ " entries.".data

/-- User-facing message selected by the `switch (error.code)` in the catch
block of `generateWeeklySummaryAction` (entries.ts lines 374-393). -/
def geminiFailureMessage (e : GeminiAPIError) : Str :=
  "Failed to generate weekly summary. ".data ++
    (if e.code = some "MISSING_API_KEY".data then
      "AI service is not configured properly.".data
    else if e.code = some "RATE_LIMIT".data then
      "Too many requests. Please try again in a few minutes.".data
    else if e.code = some "AUTH_ERROR".data then
      "AI service authentication failed.".data
    else if e.code = some "NETWORK_ERROR".data then
      "Network connection issue. Please check your internet and try again.".data
    else
      "Please try again later.".data)

/-- The `generateWeeklySummaryAction` server action of entries.ts
(lines 312-407).  `entriesResult` is the value returned by
`getEntriesForWeeklySummary`; `startDate`/`endDate` are the formatted window
bounds computed from `getLastWeekRange`/`formatDate`.  The second component
is the list of prompts sent to the generative provider during the call. -/
def generateWeeklySummaryAction (entriesResult : ApiResponse (List JournalEntry))
    (startDate endDate : Str) (apiKeyConfigured : Bool) (renderDate : Str → Str)
    (provider : ProviderOutcome) : ApiResponse WeeklySummary × List Str :=
  match entriesResult with
  | ⟨true, some entries, _⟩ =>
    if entries.length < 5 then
      ({ success := false, error := some (eligibilityErrorMessage entries.length) }, [])
    else
      match generateWeeklySummary apiKeyConfigured renderDate
          (entries.map toEntryForAI) startDate endDate provider with
      | (.ok aiSummary, calls) =>
        ({ success := true,
           data := some { summary := aiSummary.summary, theme := aiSummary.theme,
                          insights := aiSummary.insights,
                          period := { start := startDate, «end» := endDate } } }, calls)
      | (.err e, calls) =>
        ({ success := false, error := some (geminiFailureMessage e) }, calls)
  | other =>
    ({ success := false, error := some (jsOr other.error "Failed to fetch entries".data) }, [])

/-- The `{ canGenerate, entryCount }` payload of `canGenerateWeeklySummary`. -/
structure EligibilityData where
  canGenerate : Bool
  entryCount : Nat
deriving DecidableEq

/-- The `canGenerateWeeklySummary` server action of entries.ts
(lines 412-442). -/
def canGenerateWeeklySummary (entriesResult : ApiResponse (List JournalEntry)) :
    ApiResponse EligibilityData :=
  match entriesResult with
  | ⟨true, some entries, _⟩ =>
    { success := true,
      data := some { canGenerate := decide (5 ≤ entries.length),
                     entryCount := entries.length } }
  | other =>
    { success := false, error := some (jsOr other.error "Failed to check entries".data) }

/-- Lexicographic order on code points, the order in which ISO-8601
`created_at` strings compare chronologically. -/
def strLe : Str → Str → Bool
  | [], _ => true
  | _ :: _, [] => false
  | a :: as, b :: bs => if a = b then strLe as bs else decide (a.val < b.val)

/-- Boolean check that consecutive entries are in ascending `created_at`
order. -/
def ascendingBy : List JournalEntryForAI → Bool
  | [] => true
  | [_] => true
  | x :: y :: t => strLe x.created_at y.created_at && ascendingBy (y :: t)

/-- The list of entries is in ascending `created_at` order. -/
def chronologicallyAscending (entries : List JournalEntryForAI) : Prop :=
  ascendingBy entries = true

instance (entries : List JournalEntryForAI) : Decidable (chronologicallyAscending entries) :=
  inferInstanceAs (Decidable (ascendingBy entries = true))

/-- Fixture: a concrete journal row dated on day `i` of May 2024. -/
def wRow (i : Nat) : JournalEntry :=
  { id := natToStr i, user_id := "u".data, content := "c".data,
    created_at := "2024-05-0".data ++ natToStr i ++ "T08:00:00Z".data }

/-- Fixture: three rows, below the eligibility threshold. -/
def threeRows : List JournalEntry := [wRow 1, wRow 2, wRow 3]

/-- Fixture: five rows in ascending `created_at` order. -/
def fiveRows : List JournalEntry := [wRow 1, wRow 2, wRow 3, wRow 4, wRow 5]

/-- Fixture: five rows in descending `created_at` order. -/
def fiveRowsDesc : List JournalEntry := [wRow 5, wRow 4, wRow 3, wRow 2, wRow 1]

theorem findAfter_eq_none_of_not_contains {s pat : Str}
    (h : strContains s pat = false) : findAfter pat s = none := by
  unfold strContains at h
  cases hfa : findAfter pat s with
  | none => rfl
  | some v => rw [hfa] at h; simp at h

end Narrate

namespace Narrate

/-- C1: when the fetched 7-day window holds fewer than 5 entries,
`generateWeeklySummaryAction` fails with the eligibility error message and
sends no prompt to the generative provider (`model.generateContent` is
never invoked), and a successful `WeeklySummary` response is only ever
produced when the window's entry count is at least 5. -/
theorem generateWeeklySummaryAction_eligibility_gate
    (entriesResult : ApiResponse (List JournalEntry)) (startDate endDate : Str)
    (apiKeyConfigured : Bool) (renderDate : Str → Str) (provider : ProviderOutcome)
    (entries : List JournalEntry)
    (hsucc : entriesResult.success = true) (hdata : entriesResult.data = some entries) :
    (entries.length < 5 →
      (generateWeeklySummaryAction entriesResult startDate endDate apiKeyConfigured
          renderDate provider).1.success = false ∧
      (generateWeeklySummaryAction entriesResult startDate endDate apiKeyConfigured
          renderDate provider).1.error = some (eligibilityErrorMessage entries.length) ∧
      (generateWeeklySummaryAction entriesResult startDate endDate apiKeyConfigured
          renderDate provider).2 = []) ∧
    ((generateWeeklySummaryAction entriesResult startDate endDate apiKeyConfigured
        renderDate provider).1.success = true → 5 ≤ entries.length) := by
  obtain ⟨s, d, err⟩ := entriesResult
  simp only at hsucc hdata
  subst hsucc hdata
  by_cases h5 : entries.length < 5
  · simp [generateWeeklySummaryAction, h5]
  · exact ⟨fun hc => absurd hc h5, fun _ => by omega⟩

/-- Witness for C1: with three fetched entries the action fails with the
eligibility message for count 3 and the provider receives zero prompts. -/
theorem generateWeeklySummaryAction_eligibility_gate_witness :
    (generateWeeklySummaryAction ⟨true, some threeRows, none⟩ "May 1, 2024".data
        "May 7, 2024".data true (fun d => d) (.ok "text".data)).1.success = false ∧
    (generateWeeklySummaryAction ⟨true, some threeRows, none⟩ "May 1, 2024".data
        "May 7, 2024".data true (fun d => d) (.ok "text".data)).1.error
      = some (eligibilityErrorMessage 3) ∧
    (generateWeeklySummaryAction ⟨true, some threeRows, none⟩ "May 1, 2024".data
        "May 7, 2024".data true (fun d => d) (.ok "text".data)).2 = [] :=
  (generateWeeklySummaryAction_eligibility_gate ⟨true, some threeRows, none⟩
    "May 1, 2024".data "May 7, 2024".data true (fun d => d) (.ok "text".data)
    threeRows rfl rfl).1 (by decide)

/-- C2: whenever the storage read succeeds with a list of entries,
`canGenerateWeeklySummary` returns success with `canGenerate` equal to
(entry count ≥ 5) and `entryCount` equal to the entry count. -/
theorem canGenerateWeeklySummary_threshold
    (entriesResult : ApiResponse (List JournalEntry)) (entries : List JournalEntry)
    (hsucc : entriesResult.success = true) (hdata : entriesResult.data = some entries) :
    canGenerateWeeklySummary entriesResult =
      { success := true,
        data := some { canGenerate := decide (5 ≤ entries.length),
                       entryCount := entries.length },
        error := none } := by
  obtain ⟨s, d, err⟩ := entriesResult
  simp only at hsucc hdata
  subst hsucc hdata
  rfl

/-- Witness for C2: with five fetched entries the eligibility check reports
`canGenerate = true` and `entryCount = 5`. -/
theorem canGenerateWeeklySummary_threshold_witness :
    canGenerateWeeklySummary ⟨true, some fiveRows, none⟩ =
      { success := true, data := some { canGenerate := true, entryCount := 5 },
        error := none } :=
  canGenerateWeeklySummary_threshold ⟨true, some fiveRows, none⟩ fiveRows rfl rfl

/-- C3: on an eligible invocation (at least 5 entries), a provider that
returns the empty string makes `generateWeeklySummary` fail with a
`GeminiAPIError` of code `EMPTY_RESPONSE`, and the action returns a failure
with no `WeeklySummary` data rather than a degraded summary. -/
theorem emptyProviderResponse_fails
    (entriesResult : ApiResponse (List JournalEntry)) (entries : List JournalEntry)
    (startDate endDate : Str) (renderDate : Str → Str)
    (hsucc : entriesResult.success = true) (hdata : entriesResult.data = some entries)
    (h5 : 5 ≤ entries.length) :
    (generateWeeklySummary true renderDate (entries.map toEntryForAI) startDate endDate
        (.ok [])).1
      = .err { message := "Empty response from Gemini API".data,
               code := some "EMPTY_RESPONSE".data, statusCode := none } ∧
    (generateWeeklySummaryAction entriesResult startDate endDate true renderDate
        (.ok [])).1.success = false ∧
    (generateWeeklySummaryAction entriesResult startDate endDate true renderDate
        (.ok [])).1.data = none := by
  obtain ⟨s, d, err⟩ := entriesResult
  simp only at hsucc hdata
  subst hsucc hdata
  cases entries with
  | nil => exact absurd h5 (by decide)
  | cons a t =>
    have hlt : ¬(t.length + 1 < 5) := by
      simp only [List.length_cons] at h5
      omega
    refine ⟨by simp [generateWeeklySummary], ?_, ?_⟩ <;>
      simp [generateWeeklySummaryAction, hlt, generateWeeklySummary]

/-- Witness for C3: five entries and an empty provider response produce the
`EMPTY_RESPONSE` error and a data-free failure. -/
theorem emptyProviderResponse_fails_witness :
    (generateWeeklySummary true (fun d => d) (fiveRows.map toEntryForAI)
        "May 1, 2024".data "May 7, 2024".data (.ok [])).1
      = .err { message := "Empty response from Gemini API".data,
               code := some "EMPTY_RESPONSE".data, statusCode := none } ∧
    (generateWeeklySummaryAction ⟨true, some fiveRows, none⟩ "May 1, 2024".data
        "May 7, 2024".data true (fun d => d) (.ok [])).1.success = false ∧
    (generateWeeklySummaryAction ⟨true, some fiveRows, none⟩ "May 1, 2024".data
        "May 7, 2024".data true (fun d => d) (.ok [])).1.data = none :=
  emptyProviderResponse_fails ⟨true, some fiveRows, none⟩ fiveRows
    "May 1, 2024".data "May 7, 2024".data (fun d => d) rfl rfl (by decide)

/-- C4: `parseAIResponse` is total (the Lean embedding is a total function
of the response string) and degrades to sentinels: on any response that
contains the `**Weekly Summary:**` marker but neither `**Key Theme:**` nor
`**Insights & Reflections:**`, the theme is the sentinel default and the
insights list is empty. -/
theorem parseAIResponse_degrades (resp startDate endDate : Str)
    (_hsum : strContains resp weeklySummaryMarker = true)
    (hth : strContains resp keyThemeMarker = false)
    (hins : strContains resp insightsMarker = false) :
    (parseAIResponse resp startDate endDate).theme = noThemeSentinel ∧
    (parseAIResponse resp startDate endDate).insights = [] := by
  have h1 : findAfter keyThemeMarker resp = none :=
    findAfter_eq_none_of_not_contains hth
  have h2 : findAfter insightsMarker resp = none :=
    findAfter_eq_none_of_not_contains hins
  constructor
  · simp [parseAIResponse, matchSection, h1, jsOr]
  · simp [parseAIResponse, matchToEnd, h2, jsOr, splitOnBullets, splitGo, trimStr]

/-- Witness for C4: a response with only the summary marker yields the theme
sentinel and no insights. -/
theorem parseAIResponse_degrades_witness :
    (parseAIResponse "**Weekly Summary:** Good week.".data "a".data "b".data).theme
      = noThemeSentinel ∧
    (parseAIResponse "**Weekly Summary:** Good week.".data "a".data "b".data).insights
      = [] :=
  parseAIResponse_degrades "**Weekly Summary:** Good week.".data "a".data "b".data
    (by decide) (by decide) (by decide)

/-- Fixture: a well-formed response whose three insights are introduced by
the bullet `•` (U+2022). -/
def bulletResponse : Str :=
  "**Weekly Summary:**\nA good week.\n**Key Theme:**\nGrowth.\n**Insights & Reflections:**\n• one\n• two\n• three".data

/-- Fixture: the same response with `-` bullets. -/
def dashResponse : Str :=
  "**Weekly Summary:**\nA good week.\n**Key Theme:**\nGrowth.\n**Insights & Reflections:**\n- one\n- two\n- three".data

/-- C5 (code bug): the bullet-split character class on gemini.ts line 125 is
the mojibake `[-â€¢]` (U+00E2, U+20AC, U+00A2) rather than `[-•]`, so a
response whose three insights are introduced by `•` (U+2022) parses to a
single undivided insight instead of three, while the `-` variant parses to
the three bullets as the spec describes. -/
theorem parseAIResponse_bullet_mojibake :
    (parseAIResponse bulletResponse "May 1, 2024".data "May 7, 2024".data).insights.length
      = 1 ∧
    (parseAIResponse dashResponse "May 1, 2024".data "May 7, 2024".data).insights
      = ["one".data, "two".data, "three".data] ∧
    (parseAIResponse dashResponse "May 1, 2024".data "May 7, 2024".data).summary
      = "A good week.".data ∧
    (parseAIResponse dashResponse "May 1, 2024".data "May 7, 2024".data).theme
      = "Growth.".data := by decide

set_option maxRecDepth 100000 in
/-- C6 counterexample: the pipeline performs no re-sort — when storage
returns five rows in descending `created_at` order, the single prompt sent
to the provider embeds them in exactly that (non-ascending) order, and it
differs from the prompt that the ascending order would produce. -/
theorem promptEntries_not_resorted :
    (generateWeeklySummaryAction ⟨true, some fiveRowsDesc, none⟩ "May 1, 2024".data
        "May 7, 2024".data true (fun d => d) (.ok "text".data)).2
      = [formatJournalPrompt (fun d => d) (fiveRowsDesc.map toEntryForAI)
          "May 1, 2024".data "May 7, 2024".data] ∧
    ¬ chronologicallyAscending (fiveRowsDesc.map toEntryForAI) ∧
    formatJournalPrompt (fun d => d) (fiveRowsDesc.map toEntryForAI)
        "May 1, 2024".data "May 7, 2024".data
      ≠ formatJournalPrompt (fun d => d) (fiveRows.map toEntryForAI)
          "May 1, 2024".data "May 7, 2024".data := by decide

/-- C6 (amended): `getEntriesForWeeklySummary` requests the window rows from
storage ordered ascending by `created_at` (the query's order clause), and the
action embeds the returned rows into the prompt in their returned order,
each rendered as an `Entry <n> (<date>):` block joined by blank lines; hence
when storage honors the requested order, the entries embedded into the
prompt are chronologically ascending. -/
theorem promptEntries_follow_storage_order
    (rows : List JournalEntry) (startDate endDate : Str) (renderDate : Str → Str)
    (provider : ProviderOutcome)
    (h5 : 5 ≤ rows.length)
    (hsorted : chronologicallyAscending (rows.map toEntryForAI)) :
    weeklySummaryOrderClause = { orderField := "created_at".data, ascending := true } ∧
    (generateWeeklySummaryAction (getEntriesForWeeklySummary true (.ok rows))
        startDate endDate true renderDate provider).2
      = [promptIntro startDate endDate
          ++ joinSep "\n\n".data
              ((rows.map toEntryForAI).enum.map (fun p => entryBlock renderDate p.1 p.2))
          ++ promptOutro] ∧
    chronologicallyAscending (rows.map toEntryForAI) := by
  refine ⟨rfl, ?_, hsorted⟩
  cases rows with
  | nil => exact absurd h5 (by decide)
  | cons a t =>
    have hlt : ¬(t.length + 1 < 5) := by
      simp only [List.length_cons] at h5
      omega
    cases provider with
    | ok text =>
      cases text with
      | nil =>
        simp [generateWeeklySummaryAction, getEntriesForWeeklySummary, hlt,
          generateWeeklySummary, formatJournalPrompt, entriesText]
      | cons c cs =>
        simp [generateWeeklySummaryAction, getEntriesForWeeklySummary, hlt,
          generateWeeklySummary, formatJournalPrompt, entriesText]
    | thrown msg =>
      simp [generateWeeklySummaryAction, getEntriesForWeeklySummary, hlt,
        generateWeeklySummary, formatJournalPrompt, entriesText]

/-- Witness for C6 (amended): five ascending rows are embedded into the one
prompt sent, in ascending order. -/
theorem promptEntries_follow_storage_order_witness :
    weeklySummaryOrderClause = { orderField := "created_at".data, ascending := true } ∧
    (generateWeeklySummaryAction (getEntriesForWeeklySummary true (.ok fiveRows))
        "May 1, 2024".data "May 7, 2024".data true (fun d => d) (.ok "text".data)).2
      = [promptIntro "May 1, 2024".data "May 7, 2024".data
          ++ joinSep "\n\n".data
              ((fiveRows.map toEntryForAI).enum.map
                (fun p => entryBlock (fun d => d) p.1 p.2))
          ++ promptOutro] ∧
    chronologicallyAscending (fiveRows.map toEntryForAI) :=
  promptEntries_follow_storage_order fiveRows "May 1, 2024".data "May 7, 2024".data
    (fun d => d) (.ok "text".data) (by decide) (by decide)

/-- C7 counterexample: three different failure kinds — storage failure,
eligibility failure (3 entries) and provider failure (rate limit) — yield
action results that agree on the `success` and `data` fields and differ
only in the `error` message string, so the caller cannot branch on the
failure kind by any structured field of the returned value; in particular
the eligibility failure carries no `entryCount` data (its `data` is
`none`). -/
theorem failureKinds_share_structure :
    ((generateWeeklySummaryAction ⟨true, some threeRows, none⟩ "a".data "b".data true
        (fun d => d) (.ok "t".data)).1.success
      = (generateWeeklySummaryAction ⟨false, none, some "db down".data⟩ "a".data "b".data
          true (fun d => d) (.ok "t".data)).1.success) ∧
    ((generateWeeklySummaryAction ⟨true, some threeRows, none⟩ "a".data "b".data true
        (fun d => d) (.ok "t".data)).1.data
      = (generateWeeklySummaryAction ⟨false, none, some "db down".data⟩ "a".data "b".data
          true (fun d => d) (.ok "t".data)).1.data) ∧
    ((generateWeeklySummaryAction ⟨true, some fiveRows, none⟩ "a".data "b".data true
        (fun d => d) (.thrown "rate limit exceeded".data)).1.success
      = (generateWeeklySummaryAction ⟨false, none, some "db down".data⟩ "a".data "b".data
          true (fun d => d) (.ok "t".data)).1.success) ∧
    ((generateWeeklySummaryAction ⟨true, some fiveRows, none⟩ "a".data "b".data true
        (fun d => d) (.thrown "rate limit exceeded".data)).1.data
      = (generateWeeklySummaryAction ⟨false, none, some "db down".data⟩ "a".data "b".data
          true (fun d => d) (.ok "t".data)).1.data) ∧
    ((generateWeeklySummaryAction ⟨true, some threeRows, none⟩ "a".data "b".data true
        (fun d => d) (.ok "t".data)).1.error
      ≠ (generateWeeklySummaryAction ⟨false, none, some "db down".data⟩ "a".data "b".data
          true (fun d => d) (.ok "t".data)).1.error) ∧
    ((generateWeeklySummaryAction ⟨true, some fiveRows, none⟩ "a".data "b".data true
        (fun d => d) (.thrown "rate limit exceeded".data)).1.error
      ≠ (generateWeeklySummaryAction ⟨true, some threeRows, none⟩ "a".data "b".data true
          (fun d => d) (.ok "t".data)).1.error) := by decide

/-- C7 (amended): every failure of `generateWeeklySummaryAction` is returned
(not thrown) as an `ApiResponse` with `success = false`, no data, and a
human-readable message string: the storage failure forwards the storage
message, the eligibility failure interpolates the actual entry count into
its message text, and a provider failure selects its message from the
`GeminiAPIError` code via the switch — the kind is distinguishable only by
the message wording, not by a structured field. -/
theorem actionFailures_are_message_results
    (rows : List JournalEntry) (startDate endDate : Str) (renderDate : Str → Str)
    (provider : ProviderOutcome) (msg dbErr : Str) :
    (generateWeeklySummaryAction (getEntriesForWeeklySummary true (.error dbErr))
        startDate endDate true renderDate provider).1
      = { success := false, data := none,
          error := some "Failed to fetch entries for summary. Please try again.".data } ∧
    (rows.length < 5 →
      (generateWeeklySummaryAction (getEntriesForWeeklySummary true (.ok rows))
          startDate endDate true renderDate provider).1
        = { success := false, data := none,
            error := some (eligibilityErrorMessage rows.length) }) ∧
    (5 ≤ rows.length →
      (generateWeeklySummaryAction (getEntriesForWeeklySummary true (.ok rows))
          startDate endDate true renderDate (.thrown msg)).1
        = { success := false, data := none,
            error := some (geminiFailureMessage (classifyProviderError msg)) }) := by
  refine ⟨rfl, ?_, ?_⟩
  · intro hlt
    simp [generateWeeklySummaryAction, getEntriesForWeeklySummary, hlt]
  · intro h5
    cases rows with
    | nil => exact absurd h5 (by decide)
    | cons a t =>
      have hlt : ¬(t.length + 1 < 5) := by
        simp only [List.length_cons] at h5
        omega
      simp [generateWeeklySummaryAction, getEntriesForWeeklySummary, hlt,
        generateWeeklySummary]

/-- Witness for C7 (amended): a provider rate-limit failure on an eligible
window is returned as a failure response whose only payload is the message
selected by the code switch. -/
theorem actionFailures_are_message_results_witness :
    (generateWeeklySummaryAction (getEntriesForWeeklySummary true (.ok fiveRows))
        "a".data "b".data true (fun d => d) (.thrown "rate limit exceeded".data)).1
      = { success := false, data := none,
          error := some (geminiFailureMessage
            (classifyProviderError "rate limit exceeded".data)) } :=
  (actionFailures_are_message_results fiveRows "a".data "b".data (fun d => d)
    (.thrown "rate limit exceeded".data) "rate limit exceeded".data "db".data).2.2
    (by decide)

/-- C8: a provider error that is not already a `GeminiAPIError` is
classified by keyword substrings of its message — quota/rate to
`RATE_LIMIT`, then network/fetch to `NETWORK_ERROR`, then auth/key to
`AUTH_ERROR`, anything else to `UNKNOWN_ERROR` — and
`generateWeeklySummary` fails with exactly that classified error. -/
theorem generateWeeklySummary_classifies_thrown
    (renderDate : Str → Str) (entries : List JournalEntryForAI)
    (startDate endDate msg : Str) (hne : entries ≠ []) :
    (generateWeeklySummary true renderDate entries startDate endDate (.thrown msg)).1
      = .err (classifyProviderError msg) ∧
    ((strContains msg "quota".data || strContains msg "rate".data) = true →
      (classifyProviderError msg).code = some "RATE_LIMIT".data) ∧
    ((strContains msg "quota".data || strContains msg "rate".data) = false →
     (strContains msg "network".data || strContains msg "fetch".data) = true →
      (classifyProviderError msg).code = some "NETWORK_ERROR".data) ∧
    ((strContains msg "quota".data || strContains msg "rate".data) = false →
     (strContains msg "network".data || strContains msg "fetch".data) = false →
     (strContains msg "auth".data || strContains msg "key".data) = true →
      (classifyProviderError msg).code = some "AUTH_ERROR".data) ∧
    ((strContains msg "quota".data || strContains msg "rate".data) = false →
     (strContains msg "network".data || strContains msg "fetch".data) = false →
     (strContains msg "auth".data || strContains msg "key".data) = false →
      (classifyProviderError msg).code = some "UNKNOWN_ERROR".data) := by
  refine ⟨?_, ?_, ?_, ?_, ?_⟩
  · cases entries with
    | nil => exact absurd rfl hne
    | cons a t => simp [generateWeeklySummary]
  · intro h1
    simp [classifyProviderError, h1]
  · intro h1 h2
    simp [classifyProviderError, h1, h2]
  · intro h1 h2 h3
    simp [classifyProviderError, h1, h2, h3]
  · intro h1 h2 h3
    simp [classifyProviderError, h1, h2, h3]

/-- Witness for C8 (Scenario C of the spec): a thrown provider error whose
message contains "rate limit exceeded" yields the `RATE_LIMIT` category. -/
theorem generateWeeklySummary_classifies_thrown_witness :
    (generateWeeklySummary true (fun d => d)
        [{ content := "c".data, created_at := "d".data }] "a".data "b".data
        (.thrown "Provider said: rate limit exceeded".data)).1
      = .err (classifyProviderError "Provider said: rate limit exceeded".data) ∧
    (classifyProviderError "Provider said: rate limit exceeded".data).code
      = some "RATE_LIMIT".data := by
  have h := generateWeeklySummary_classifies_thrown (fun d => d)
    [{ content := "c".data, created_at := "d".data }] "a".data "b".data
    "Provider said: rate limit exceeded".data (by decide)
  exact ⟨h.1, h.2.1 (by decide)⟩

/-- C9: both the normal-parse result of `parseAIResponse` and the catch-all
fallback value carry `period.start` and `period.end` equal to the date
arguments, unchanged by the content of the response string. -/
theorem parseAIResponse_period_frame (resp startDate endDate : Str) :
    (parseAIResponse resp startDate endDate).period
      = { start := startDate, «end» := endDate } ∧
    (parseAIResponseFallback startDate endDate).period
      = { start := startDate, «end» := endDate } :=
  ⟨rfl, rfl⟩

/-- C10: with a configured API key and an empty entries list,
`generateWeeklySummary` fails with a `GeminiAPIError` of code `NO_ENTRIES`
and sends no prompt to the provider (the call list is empty, so no prompt
is built and `model.generateContent` is never reached). -/
theorem generateWeeklySummary_rejects_empty_entries
    (renderDate : Str → Str) (startDate endDate : Str) (provider : ProviderOutcome) :
    generateWeeklySummary true renderDate [] startDate endDate provider
      = (.err { message := "No journal entries provided for summary generation".data,
                code := some "NO_ENTRIES".data, statusCode := none }, []) :=
  rfl

end Narrate
